import Mathlib

/-!
Verification of the Samocode orchestrator core against its specification.

The definitions below are a shallow embedding of the Python sources:

* `src/worker/phases.py`   — phase registry and transition/signal/budget checks
* `src/worker/signals.py`  — the final signal-file codec (`src/signals.py` is
  the earlier, legacy codec; it is embedded separately)
* `src/worker/signal_history.py` — the append-only signal ledger
* `src/worker/runner.py`   — the retry wrapper around one CLI attempt
* `src/main.py`            — `validate_and_process_signal`

Machine-level caveats of the embedding, stated once here:

* Python `str.lower` is modelled as ASCII lowercasing (`Char.toLower`);
  every string the program compares is ASCII.
* Python truthiness of an optional string (`None` and `""` are falsy) is
  modelled by `pyOr` / `pyTruthy`.
* File I/O is made explicit: the signal file's observable content is the
  `SignalFileContent` sum, the ledger file is a `List HistoryLine`, and the
  runner's single attempt is an abstract function from the attempt number to
  its `ExecutionResult`.
-/

namespace Samocode

/-- ASCII model of Python `str.lower()`: lowercase every character. Stated
    over the character list so that the kernel can evaluate it. -/
def pyLower (s : String) : String :=
  String.mk (s.data.map Char.toLower)

/-- Python `a or b` on optional strings: `None` and `""` are falsy. -/
def pyOr (a b : Option String) : Option String :=
  match a with
  | none => b
  | some s => if s = "" then b else some s

/-- Python truthiness of an optional string. -/
def pyTruthy (a : Option String) : Bool :=
  match a with
  | none => false
  | some s => s ≠ ""

/-- How a Python f-string renders a `str | None` value (`None` prints as `"None"`). -/
def optFmt (a : Option String) : String :=
  match a with
  | none => "None"
  | some s => s

/-- Python `repr` of a list of strings, as printed inside error messages. -/
def pyListRepr (l : List String) : String :=
  "[" ++ String.intercalate ", " (l.map (fun s => "'" ++ s ++ "'")) ++ "]"

/-- Insert into a `≤`-sorted list of strings (model of Python `sorted`). -/
def sortedInsert (s : String) : List String → List String
  | [] => [s]
  | t :: ts => if s ≤ t then s :: t :: ts else t :: sortedInsert s ts

/-- Python `sorted` on a collection of strings. -/
def pySorted (l : List String) : List String :=
  l.foldr sortedInsert []

/-! ## `src/worker/phases.py` -/

/-- The `Phase` enum: all valid workflow phases. -/
inductive Phase
  | INIT
  | INVESTIGATION
  | REQUIREMENTS
  | PLANNING
  | IMPLEMENTATION
  | TESTING
  | QUALITY
  | DONE
deriving DecidableEq

/-- The string value of each `Phase` enum member. -/
def Phase.value : Phase → String
  | .INIT => "init"
  | .INVESTIGATION => "investigation"
  | .REQUIREMENTS => "requirements"
  | .PLANNING => "planning"
  | .IMPLEMENTATION => "implementation"
  | .TESTING => "testing"
  | .QUALITY => "quality"
  | .DONE => "done"

/-- Python `Phase(s)`: look a string up among the enum values (raises, i.e.
    `none`, when unknown). -/
def phaseOfString (s : String) : Option Phase :=
  if s = "init" then some .INIT
  else if s = "investigation" then some .INVESTIGATION
  else if s = "requirements" then some .REQUIREMENTS
  else if s = "planning" then some .PLANNING
  else if s = "implementation" then some .IMPLEMENTATION
  else if s = "testing" then some .TESTING
  else if s = "quality" then some .QUALITY
  else if s = "done" then some .DONE
  else none

/-- `PhaseConfig`: configuration for a single phase. `allowed_next` and
    `allowed_signals` are frozensets in Python; they are carried as lists in
    the literal order of the source. -/
structure PhaseConfig where
  phase : Phase
  agent_name : String
  allowed_next : List Phase
  allowed_signals : List String
  max_iterations : Int
  requires_gate : Bool
deriving DecidableEq

/-- `PhaseConfig.can_transition_to`. -/
def PhaseConfig.can_transition_to (c : PhaseConfig) (target : Phase) : Bool :=
  c.allowed_next.contains target

/-- `PhaseConfig.is_signal_allowed`. -/
def PhaseConfig.is_signal_allowed (c : PhaseConfig) (signal_status : String) : Bool :=
  c.allowed_signals.contains (pyLower signal_status)

/-- The `PHASE_CONFIGS` registry, as a total function (every enum member has
    exactly one entry in the Python dict). -/
def PHASE_CONFIGS : Phase → PhaseConfig
  | .INIT =>
      { phase := .INIT, agent_name := "init-agent",
        allowed_next := [.INVESTIGATION],
        allowed_signals := ["continue", "blocked"],
        max_iterations := 5, requires_gate := false }
  | .INVESTIGATION =>
      { phase := .INVESTIGATION, agent_name := "investigation-agent",
        allowed_next := [.REQUIREMENTS],
        allowed_signals := ["continue", "blocked"],
        max_iterations := 20, requires_gate := false }
  | .REQUIREMENTS =>
      { phase := .REQUIREMENTS, agent_name := "requirements-agent",
        allowed_next := [.PLANNING],
        allowed_signals := ["continue", "waiting", "blocked"],
        max_iterations := 10, requires_gate := true }
  | .PLANNING =>
      { phase := .PLANNING, agent_name := "planning-agent",
        allowed_next := [.IMPLEMENTATION],
        allowed_signals := ["continue", "waiting", "blocked"],
        max_iterations := 10, requires_gate := true }
  | .IMPLEMENTATION =>
      { phase := .IMPLEMENTATION, agent_name := "implementation-agent",
        allowed_next := [.TESTING],
        allowed_signals := ["continue", "waiting", "blocked"],
        max_iterations := 100, requires_gate := false }
  | .TESTING =>
      { phase := .TESTING, agent_name := "testing-agent",
        allowed_next := [.QUALITY, .DONE],
        allowed_signals := ["continue", "blocked"],
        max_iterations := 20, requires_gate := false }
  | .QUALITY =>
      { phase := .QUALITY, agent_name := "quality-agent",
        allowed_next := [.TESTING],
        allowed_signals := ["continue", "blocked"],
        max_iterations := 10, requires_gate := false }
  | .DONE =>
      { phase := .DONE, agent_name := "done-agent",
        allowed_next := [],
        allowed_signals := ["done", "blocked"],
        max_iterations := 3, requires_gate := false }

/-- `get_phase_config`: phase configuration by phase name string; `none` for
    `None` input or an unknown phase name. -/
def get_phase_config (phase_str : Option String) : Option PhaseConfig :=
  match phase_str with
  | none => none
  | some s => (phaseOfString (pyLower s)).map PHASE_CONFIGS

/-- `get_agent_for_phase`. -/
def get_agent_for_phase (phase_str : Option String) : Option String :=
  (get_phase_config phase_str).map PhaseConfig.agent_name

/-- `validate_transition`: returns `(is_valid, error_message)`. -/
def validate_transition (from_phase to_phase : Option String) : Bool × String :=
  match to_phase with
  | none =>
      (false, "Invalid phases: from=" ++ optFmt from_phase ++ ", to=" ++ optFmt to_phase)
  | some toP =>
      match from_phase with
      | none =>
          if pyLower toP = "init" then (true, "")
          else (false, "New session must start with 'init', got '" ++ toP ++ "'")
      | some fromP =>
          match get_phase_config (some fromP) with
          | none => (false, "Unknown source phase: " ++ fromP)
          | some from_config =>
              match phaseOfString (pyLower toP) with
              | none => (false, "Unknown target phase: " ++ toP)
              | some to_phase_enum =>
                  if pyLower fromP = pyLower toP then (true, "")
                  else if from_config.can_transition_to to_phase_enum then (true, "")
                  else
                    (false, "Invalid transition: " ++ fromP ++ " -> " ++ toP
                      ++ ". Valid targets: "
                      ++ pyListRepr (from_config.allowed_next.map Phase.value))

/-- `validate_signal_for_phase`: returns `(is_valid, error_message)`. -/
def validate_signal_for_phase (phase_str : Option String) (signal_status : String) :
    Bool × String :=
  match get_phase_config phase_str with
  | none => (true, "Unknown phase: " ++ optFmt phase_str)
  | some config =>
      if config.is_signal_allowed signal_status then (true, "")
      else
        (false, "Signal '" ++ signal_status ++ "' not allowed in phase '"
          ++ optFmt phase_str ++ "'. Allowed: "
          ++ pyListRepr (pySorted config.allowed_signals))

/-- `is_iteration_limit_exceeded`: returns `(is_exceeded, max_allowed)`. -/
def is_iteration_limit_exceeded (phase_str : Option String) (iteration_count : Int) :
    Bool × Int :=
  match get_phase_config phase_str with
  | none => (false, 0)
  | some config => (iteration_count > config.max_iterations, config.max_iterations)

/-! ## `src/worker/signals.py` (final codec) and `src/signals.py` (legacy codec) -/

/-- The `SignalStatus` enum. -/
inductive SignalStatus
  | CONTINUE
  | DONE
  | BLOCKED
  | WAITING
deriving DecidableEq

/-- The string value of each `SignalStatus` member. -/
def SignalStatus.value : SignalStatus → String
  | .CONTINUE => "continue"
  | .DONE => "done"
  | .BLOCKED => "blocked"
  | .WAITING => "waiting"

/-- Python `SignalStatus(s)`: `none` models the `ValueError` on an unknown
    status string. -/
def signalStatusOfString (s : String) : Option SignalStatus :=
  if s = "continue" then some .CONTINUE
  else if s = "done" then some .DONE
  else if s = "blocked" then some .BLOCKED
  else if s = "waiting" then some .WAITING
  else none

/-- The `Signal` dataclass of `src/worker/signals.py`. Optional JSON fields
    that carry a non-string scalar are represented as absent; no behaviour
    proved here inspects such a field. -/
structure Signal where
  status : SignalStatus
  summary : Option String := none
  reason : Option String := none
  needs : Option String := none
  waiting_for : Option String := none
  phase : Option String := none
deriving DecidableEq

/-- A JSON value, as produced by Python `json.loads`. Objects are ordered
    association lists; numbers are integers (no signal payload carries a
    fractional number). -/
inductive Json
  | null
  | bool (b : Bool)
  | num (n : Int)
  | str (s : String)
  | arr (elems : List Json)
  | obj (fields : List (String × Json))

/-- Python truthiness of a JSON value (`not data`). -/
def jsonTruthy : Json → Bool
  | .null => false
  | .bool b => b
  | .num n => n ≠ 0
  | .str s => s ≠ ""
  | .arr elems => !elems.isEmpty
  | .obj fields => !fields.isEmpty

/-- `dict.get key` on a decoded JSON object (first binding wins, as in
    `json.loads`, which keeps the last duplicate; signal payloads carry no
    duplicate keys). -/
def jsonGet (fields : List (String × Json)) (key : String) : Option Json :=
  (fields.find? (fun kv => kv.1 = key)).map Prod.snd

/-- `dict.get key` when the caller expects an optional string field: a
    present string passes through, `null` and absent give `None`.
    A present non-string scalar is modelled as absent (see `Signal`). -/
def jsonGetStr (fields : List (String × Json)) (key : String) : Option String :=
  match jsonGet fields key with
  | some (.str s) => some s
  | _ => none

/-- The observable content of `_signal.json` when read: the file is missing,
    its text is not JSON (`json.JSONDecodeError` with message `e`), or it
    decodes to a JSON value. -/
inductive SignalFileContent
  | missing
  | notJson (e : String)
  | content (j : Json)

/-- Message of the `except Exception` branch: in Python it carries the
    `AttributeError` text raised when `.get` or `.lower()` is called on a
    non-dict payload or a non-string status; no claim inspects this text. -/
def failedReadMsg : String :=
  "Failed to read signal"

/-- `read_signal_file` of `src/worker/signals.py` (the final codec): parse
    the signal file, never raising; `BLOCKED` on every error. -/
def read_signal_file (c : SignalFileContent) : Signal :=
  match c with
  | .missing =>
      { status := .BLOCKED, reason := some "Signal file not created",
        needs := some "investigation" }
  | .notJson e =>
      { status := .BLOCKED, reason := some ("Invalid signal JSON: " ++ e),
        needs := some "investigation" }
  | .content data =>
      if jsonTruthy data = false then
        { status := .CONTINUE }
      else
        match data with
        | .obj fields =>
            match jsonGet fields "status" with
            | some (.str s) =>
                let status_str := pyLower s
                (match signalStatusOfString status_str with
                 | none =>
                     { status := .BLOCKED,
                       reason := some ("Invalid signal status: " ++ status_str),
                       needs := some "investigation" }
                 | some status =>
                     { status := status,
                       summary := jsonGetStr fields "summary",
                       reason := jsonGetStr fields "reason",
                       needs := jsonGetStr fields "needs",
                       waiting_for := jsonGetStr fields "for",
                       phase := jsonGetStr fields "phase" })
            | none =>
                -- `data.get("status", "")` yields `""`; `SignalStatus("")` raises
                { status := .BLOCKED,
                  reason := some ("Invalid signal status: " ++ ""),
                  needs := some "investigation" }
            | some _ =>
                -- non-string status: `.lower()` raises, caught by `except Exception`
                { status := .BLOCKED, reason := some failedReadMsg,
                  needs := some "investigation" }
        | _ =>
            -- truthy non-dict payload: `.get` raises, caught by `except Exception`
            { status := .BLOCKED, reason := some failedReadMsg,
              needs := some "investigation" }

/-- `read_signal_file` of the legacy `src/signals.py` codec, projected onto
    the fields shared with the final `Signal` shape (the legacy dataclass has
    `next_state`/`context` in place of `phase`; those extra fields decide no
    claim). The only behavioural difference exercised here is the falsy
    payload: the legacy codec returns `BLOCKED` instead of `CONTINUE`. -/
def legacy_read_signal_file (c : SignalFileContent) : Signal :=
  match c with
  | .missing =>
      { status := .BLOCKED, reason := some "Signal file not created",
        needs := some "investigation" }
  | .notJson e =>
      { status := .BLOCKED, reason := some ("Invalid signal JSON: " ++ e),
        needs := some "investigation" }
  | .content data =>
      if jsonTruthy data = false then
        { status := .BLOCKED,
          reason := some "Empty signal file - Claude may have crashed",
          needs := some "investigation" }
      else
        match data with
        | .obj fields =>
            match jsonGet fields "status" with
            | some (.str s) =>
                let status_str := pyLower s
                (match signalStatusOfString status_str with
                 | none =>
                     { status := .BLOCKED,
                       reason := some ("Invalid signal status: " ++ status_str),
                       needs := some "investigation" }
                 | some status =>
                     { status := status,
                       summary := jsonGetStr fields "summary",
                       reason := jsonGetStr fields "reason",
                       needs := jsonGetStr fields "needs",
                       waiting_for := jsonGetStr fields "for" })
            | none =>
                { status := .BLOCKED,
                  reason := some ("Invalid signal status: " ++ ""),
                  needs := some "investigation" }
            | some _ =>
                { status := .BLOCKED, reason := some failedReadMsg,
                  needs := some "investigation" }
        | _ =>
            { status := .BLOCKED, reason := some failedReadMsg,
              needs := some "investigation" }

/-! ## `src/worker/signal_history.py` -/

/-- The `SignalHistoryEntry` dataclass. The wall-clock timestamp string is
    irrelevant to every query and recorded as `""` by the embedding of
    `record_signal`. -/
structure SignalHistoryEntry where
  timestamp : String
  iteration : Nat
  phase : Option String
  status : String
  summary : Option String
  reason : Option String
  needs : Option String
  waiting_for : Option String
deriving DecidableEq

/-- One line of `_signal_history.jsonl` as seen by the readers: blank
    (skipped by `line.strip()`), corrupt (skipped via `json.JSONDecodeError`),
    or a well-formed entry. -/
inductive HistoryLine
  | blank
  | corrupt
  | entry (e : SignalHistoryEntry)
deriving DecidableEq

/-- `record_signal`: append one entry; recorded phase is the signal's own
    phase if truthy, else the fallback phase from the overview. -/
def record_signal (ledger : List HistoryLine) (signal : Signal) (iteration : Nat)
    (phase_from_overview : Option String) : List HistoryLine :=
  ledger ++ [.entry
    { timestamp := ""
      iteration := iteration
      phase := pyOr signal.phase phase_from_overview
      status := signal.status.value
      summary := signal.summary
      reason := signal.reason
      needs := signal.needs
      waiting_for := signal.waiting_for }]

/-- The per-line test of `get_phase_iteration_count`: a well-formed entry
    whose phase is truthy and matches case-insensitively. -/
def historyLineMatches (phase_lower : String) : HistoryLine → Bool
  | .blank => false
  | .corrupt => false
  | .entry e =>
      match e.phase with
      | none => false
      | some p => p ≠ "" && pyLower p = phase_lower

/-- `get_phase_iteration_count`: count ledger entries recorded for a phase,
    case-insensitively, skipping blank and corrupt lines. -/
def get_phase_iteration_count (ledger : List HistoryLine) (phase : String) : Nat :=
  ledger.countP (historyLineMatches (pyLower phase))

/-! ## `src/worker/runner.py` (retry wrapper) -/

/-- The `ExecutionStatus` enum. -/
inductive ExecutionStatus
  | SUCCESS
  | TIMEOUT
  | FAILURE
  | RETRY_EXHAUSTED
deriving DecidableEq

/-- The `ExecutionResult` dataclass. `log_file` is carried as the path
    string. -/
structure ExecutionResult where
  status : ExecutionStatus
  stdout : String
  stderr : String
  returncode : Option Int
  attempt : Nat
  log_file : Option String := none
deriving DecidableEq

/-- `range(1, max_retries + 1)`: the attempt numbers `start, start+1, ...`
    of length `len`. -/
def attemptNumbers (start : Nat) : Nat → List Nat
  | 0 => []
  | len + 1 => start :: attemptNumbers (start + 1) len

/-- Outcome of the `for attempt in range(...)` loop of
    `run_claude_with_retry`: the early `return` on `SUCCESS`, or fall-through
    with the last attempt's result (if any). -/
inductive RetryOutcome
  | earlySuccess (r : ExecutionResult)
  | allFailed (last : Option ExecutionResult)

/-- The retry loop body. `run_once` abstracts `run_claude_once` as a function
    of the attempt number (logging, the inter-attempt sleep, and the
    attempt-1-only initial instructions do not affect the result). Also
    returns how many times `run_once` was invoked. -/
def retryLoop (run_once : Nat → ExecutionResult) (last : Option ExecutionResult) :
    List Nat → RetryOutcome × Nat
  | [] => (.allFailed last, 0)
  | a :: rest =>
      let result := run_once a
      if result.status = .SUCCESS then
        (.earlySuccess result, 1)
      else
        let (outcome, calls) := retryLoop run_once (some result) rest
        (outcome, calls + 1)

/-- `run_claude_with_retry`: execute with retry for transient failures.
    Returns the final `ExecutionResult` paired with the number of
    single-attempt invocations made. -/
def run_claude_with_retry (run_once : Nat → ExecutionResult) (max_retries : Nat) :
    ExecutionResult × Nat :=
  match retryLoop run_once none (attemptNumbers 1 max_retries) with
  | (.earlySuccess r, calls) => (r, calls)
  | (.allFailed none, calls) =>
      ({ status := .RETRY_EXHAUSTED, stdout := "", stderr := "No attempts made",
         returncode := none, attempt := 0, log_file := none }, calls)
  | (.allFailed (some result), calls) =>
      ({ status := .RETRY_EXHAUSTED, stdout := result.stdout,
         stderr := result.stderr, returncode := result.returncode,
         attempt := max_retries, log_file := result.log_file }, calls)

/-! ## `src/main.py` — `validate_and_process_signal` -/

/-- Observable outcome of `validate_and_process_signal`: the returned
    (possibly overridden) signal, the ledger after the initial
    `record_signal`, and the phase committed to `_overview.md`.

    `committed_phase` is `some p` exactly when the function reaches
    `update_phase(session_path, signal.phase)`. `update_phase` itself is
    imported by `main.py` but absent from the sources; modelled from the
    spec: it rewrites the `Phase:` line of the overview document to `p`. -/
structure ProcessResult where
  signal : Signal
  ledger : List HistoryLine
  committed_phase : Option String
deriving DecidableEq

/-- `validate_and_process_signal` (`src/main.py`, lines 44-123): record the
    raw signal, then enforce signal legality, the per-phase iteration budget,
    the gate rule and transition validity, overriding to `BLOCKED` on each
    violation. -/
def validate_and_process_signal (signal : Signal) (current_phase : Option String)
    (ledger : List HistoryLine) (iteration : Nat) : ProcessResult :=
  -- Record signal to history first (even if invalid)
  let ledger2 := record_signal ledger signal iteration current_phase
  let signal_phase := pyOr signal.phase current_phase
  -- Use current_phase for validation, not the target phase
  let validation_phase := pyOr current_phase signal_phase
  let v := validate_signal_for_phase validation_phase signal.status.value
  if v.1 = false then
    { signal := { status := .BLOCKED, phase := signal_phase,
                  reason := some ("Invalid signal: " ++ v.2),
                  needs := some "investigation" },
      ledger := ledger2, committed_phase := none }
  else
    -- Check per-phase iteration limit (the freshly recorded entry included,
    -- since the count re-reads the history file after the append)
    let budget_blocked : Option Signal :=
      match signal_phase with
      | none => none
      | some sp =>
          if sp = "" then none
          else
            let phase_iterations : Int := get_phase_iteration_count ledger2 sp
            let e := is_iteration_limit_exceeded (some sp) phase_iterations
            if e.1 then
              some { status := .BLOCKED, phase := some sp,
                     reason := some ("Phase '" ++ sp ++ "' exceeded "
                       ++ toString e.2 ++ " iteration limit"),
                     needs := some "investigation" }
            else none
    match budget_blocked with
    | some b => { signal := b, ledger := ledger2, committed_phase := none }
    | none =>
        -- Validate phase transition (if signal indicates phase change)
        match signal.phase, current_phase with
        | some sp, some cp =>
            if sp ≠ "" ∧ cp ≠ "" ∧ pyLower sp ≠ pyLower cp then
              -- Gated phases must signal waiting before transitioning
              let gate_violation :=
                match get_phase_config current_phase with
                | none => false
                | some cfg => cfg.requires_gate && signal.status ≠ .WAITING
              if gate_violation then
                { signal := { status := .BLOCKED, phase := current_phase,
                              reason := some ("Phase '" ++ cp
                                ++ "' requires human approval before transitioning"),
                              needs := some "human_decision" },
                  ledger := ledger2, committed_phase := none }
              else
                let t := validate_transition current_phase signal.phase
                if t.1 = false then
                  { signal := { status := .BLOCKED, phase := current_phase,
                                reason := some t.2,
                                needs := some "investigation" },
                    ledger := ledger2, committed_phase := none }
                else
                  -- update_phase: commit the new phase to _overview.md
                  { signal := signal, ledger := ledger2, committed_phase := signal.phase }
            else
              { signal := signal, ledger := ledger2, committed_phase := none }
        | _, _ =>
            { signal := signal, ledger := ledger2, committed_phase := none }

/-! ## Helper lemmas -/

/-- Lowercasing the string "done" is the identity. -/
lemma pyLower_done : pyLower "done" = "done" := by decide

/-- `pyOr` of a nonempty string ignores the fallback. -/
lemma pyOr_some_ne (s : String) (h : s ≠ "") (b : Option String) :
    pyOr (some s) b = some s := by
  simp [pyOr, h]

/-- The terminal phase has an empty allowed-next set, so no target passes
    `can_transition_to`. -/
lemma done_can_transition_to_false (q : Phase) :
    (PHASE_CONFIGS .DONE).can_transition_to q = false := by
  simp [PHASE_CONFIGS, PhaseConfig.can_transition_to]

/-- Looking up the phase string "done" yields the terminal phase's config. -/
lemma get_phase_config_done : get_phase_config (some "done") = some (PHASE_CONFIGS .DONE) := by
  decide

/-! ## Claims -/

/-- Claim C1, counterexample. The claim states that `validate_transition("done", t)`
    is invalid for every `t` and that `validate_transition(null, t)` is invalid for
    every `t` other than `"init"`. Both universal parts are false on the code:
    the self-loop `("done", "done")` is valid (the same-phase check precedes the
    terminal check), and `(null, "INIT")` is valid (the target is lowercased
    before comparison). -/
theorem c1_transition_laws_counterexample :
    (validate_transition (some "done") (some "done")).1 = true ∧
    (validate_transition none (some "INIT")).1 = true := by
  decide

/-- Claim C1, amended. For every defined phase `P`, `validate_transition(P, P)`
    is valid; `validate_transition(null, t)` is valid exactly when `t` lowercases
    to `"init"`; and `validate_transition("done", t)` is valid exactly when `t`
    lowercases to `"done"` (the always-legal self-loop) — invalid for every
    other target, since the terminal phase's allowed-next set is empty. -/
theorem c1_transition_laws :
    (∀ ph : Phase, (validate_transition (some ph.value) (some ph.value)).1 = true) ∧
    (∀ t : String, (validate_transition none (some t)).1 = true ↔ pyLower t = "init") ∧
    (∀ t : String, (validate_transition (some "done") (some t)).1 = true ↔ pyLower t = "done") := by
  refine ⟨?_, ?_, ?_⟩
  · intro ph
    cases ph <;> decide
  · intro t
    by_cases h : pyLower t = "init" <;> simp [validate_transition, h]
  · intro t
    by_cases h : pyLower t = "done"
    · simp [validate_transition, get_phase_config_done, h, pyLower_done, phaseOfString]
    · cases hq : phaseOfString (pyLower t) with
      | none =>
          simp [validate_transition, get_phase_config_done, hq, pyLower_done, h,
            Ne.symm h]
      | some q =>
          simp [validate_transition, get_phase_config_done, hq, pyLower_done, h,
            Ne.symm h, done_can_transition_to_false]

/-- Claim C2, counterexample. The claim states that signal-status legality is
    checked against the signal's own phase when present. Here the signal's own
    phase is `"done"`, for which `"continue"` is illegal, yet the code (which
    validates against the current phase `"testing"` instead) returns the signal
    unchanged rather than overriding it to `BLOCKED`. -/
theorem c2_validation_phase_counterexample :
    (validate_signal_for_phase (some "done") "continue").1 = false ∧
    (validate_and_process_signal { status := .CONTINUE, phase := some "done" }
        (some "testing") [] 1).signal =
      { status := .CONTINUE, phase := some "done" } := by
  decide

/-- Claim C2, amended. The phase used to check signal-status legality is the
    current phase when truthy, falling back to the signal's own phase only when
    the current phase is absent or empty; a status illegal for that phase causes
    the returned signal to be overridden to `BLOCKED` with
    `needs = "investigation"` (its phase field set to the signal's phase
    falling back to the current phase), the raw signal is still recorded, and
    no transition is committed. -/
theorem c2_validation_phase (signal : Signal) (current_phase : Option String)
    (ledger : List HistoryLine) (iteration : Nat)
    (h : (validate_signal_for_phase (pyOr current_phase (pyOr signal.phase current_phase))
            signal.status.value).1 = false) :
    validate_and_process_signal signal current_phase ledger iteration =
      { signal := { status := .BLOCKED, phase := pyOr signal.phase current_phase,
                    reason := some ("Invalid signal: "
                      ++ (validate_signal_for_phase
                            (pyOr current_phase (pyOr signal.phase current_phase))
                            signal.status.value).2),
                    needs := some "investigation" },
        ledger := record_signal ledger signal iteration current_phase,
        committed_phase := none } := by
  simp [validate_and_process_signal, h]

/-- Claim C2, witness: a `continue` signal in current phase `"done"` (where it
    is illegal) is overridden to `BLOCKED`/investigation. -/
theorem c2_validation_phase_witness :
    (validate_and_process_signal { status := .CONTINUE } (some "done") [] 1).signal.status =
      SignalStatus.BLOCKED := by
  rw [c2_validation_phase { status := .CONTINUE } (some "done") [] 1 (by decide)]

/-- A prior `"planning"` ledger entry used to exhaust the planning budget in
    the C3 counterexample. -/
def priorPlanningEntry : SignalHistoryEntry :=
  { timestamp := "", iteration := 1, phase := some "planning",
    status := "continue", summary := none, reason := none, needs := none,
    waiting_for := none }

/-- Claim C3, counterexample. The claim quantifies over every status other than
    exactly `"waiting"`, but two earlier checks can fire first: with status
    `"done"` (illegal in phase `"requirements"`) the signal-legality override
    yields `needs = "investigation"`, and with status `"continue"` but ten
    prior `"planning"` ledger entries the budget override also yields
    `needs = "investigation"` — in neither case the claimed
    `needs = "human_decision"`. -/
theorem c3_gate_rule_counterexample :
    ((validate_and_process_signal { status := .DONE, phase := some "planning" }
        (some "requirements") [] 1).signal.status = SignalStatus.BLOCKED ∧
     (validate_and_process_signal { status := .DONE, phase := some "planning" }
        (some "requirements") [] 1).signal.needs = some "investigation") ∧
    ((validate_and_process_signal { status := .CONTINUE, phase := some "planning" }
        (some "requirements")
        (List.replicate 10 (.entry priorPlanningEntry)) 1).signal.status =
        SignalStatus.BLOCKED ∧
     (validate_and_process_signal { status := .CONTINUE, phase := some "planning" }
        (some "requirements")
        (List.replicate 10 (.entry priorPlanningEntry)) 1).signal.needs =
        some "investigation") ∧
    (some "investigation" : Option String) ≠ some "human_decision" := by
  decide

/-- Claim C3, amended. If the current phase requires a gate, the signal
    requests a phase change (its phase truthy and differing case-insensitively
    from the truthy current phase) with a status other than exactly `waiting`,
    and additionally that status is legal for the current phase and the
    per-phase iteration budget of the signal's phase is not exceeded after
    recording, then the processed signal is overridden to `BLOCKED` with
    `needs = "human_decision"` and no transition is committed. -/
theorem c3_gate_rule (signal : Signal) (sp cp : String) (ledger : List HistoryLine)
    (iteration : Nat) (cfg : PhaseConfig)
    (hsp : signal.phase = some sp) (hspne : sp ≠ "") (hcpne : cp ≠ "")
    (hcfg : get_phase_config (some cp) = some cfg) (hgate : cfg.requires_gate = true)
    (hdiff : pyLower sp ≠ pyLower cp)
    (hstatus : signal.status ≠ .WAITING)
    (hlegal : (validate_signal_for_phase (some cp) signal.status.value).1 = true)
    (hbudget : (is_iteration_limit_exceeded (some sp)
        (get_phase_iteration_count
          (record_signal ledger signal iteration (some cp)) sp)).1 = false) :
    validate_and_process_signal signal (some cp) ledger iteration =
      { signal := { status := .BLOCKED, phase := some cp,
                    reason := some ("Phase '" ++ cp
                      ++ "' requires human approval before transitioning"),
                    needs := some "human_decision" },
        ledger := record_signal ledger signal iteration (some cp),
        committed_phase := none } := by
  simp only [validate_and_process_signal, hsp, pyOr_some_ne sp hspne,
    pyOr_some_ne cp hcpne, hlegal, hbudget, hcfg]
  simp [hspne, hcpne, hdiff, hgate, hstatus, hlegal, hbudget]

/-- Claim C3, witness (end-to-end scenario B): phase `"requirements"` with
    signal `continue`/`planning` and an empty ledger is overridden to
    `BLOCKED` with `needs = "human_decision"` and nothing is committed. -/
theorem c3_gate_rule_witness :
    validate_and_process_signal { status := .CONTINUE, phase := some "planning" }
        (some "requirements") [] 1 =
      { signal := { status := .BLOCKED, phase := some "requirements",
                    reason := some ("Phase '" ++ "requirements"
                      ++ "' requires human approval before transitioning"),
                    needs := some "human_decision" },
        ledger := record_signal [] { status := .CONTINUE, phase := some "planning" } 1
          (some "requirements"),
        committed_phase := none } :=
  c3_gate_rule { status := .CONTINUE, phase := some "planning" } "planning"
    "requirements" [] 1 (PHASE_CONFIGS .REQUIREMENTS) rfl (by decide) (by decide)
    (by decide) (by decide) (by decide) (by decide) (by decide) (by decide)

/-- Claim C4, counterexample. The claim states that every empty-object payload
    decodes to a BLOCKED signal with a non-null reason, but the final codec
    (`src/worker/signals.py`, listed as a source of the claim) decodes `{}` to
    `CONTINUE` with no reason at all. -/
theorem c4_codec_safety_counterexample :
    (read_signal_file (.content (.obj []))).status = SignalStatus.CONTINUE ∧
    (read_signal_file (.content (.obj []))).reason = none := by
  decide

/-- Claim C4, amended. Signal decoding is total (both codecs are functions).
    A missing signal file yields BLOCKED with reason "Signal file not created"
    (capital S) and needs "investigation"; every non-JSON payload and every
    unknown-status-string payload yields BLOCKED with a non-null reason in
    both codecs. The empty-object payload yields CONTINUE in the final codec
    (`src/worker/signals.py`) and BLOCKED with a non-null reason only in the
    legacy codec (`src/signals.py`). -/
theorem c4_codec_safety :
    (read_signal_file .missing =
      { status := .BLOCKED, reason := some "Signal file not created",
        needs := some "investigation" }) ∧
    (legacy_read_signal_file .missing =
      { status := .BLOCKED, reason := some "Signal file not created",
        needs := some "investigation" }) ∧
    (∀ e, read_signal_file (.notJson e) =
      { status := .BLOCKED, reason := some ("Invalid signal JSON: " ++ e),
        needs := some "investigation" }) ∧
    (∀ e, legacy_read_signal_file (.notJson e) =
      { status := .BLOCKED, reason := some ("Invalid signal JSON: " ++ e),
        needs := some "investigation" }) ∧
    (∀ fields s, jsonGet fields "status" = some (.str s) →
        signalStatusOfString (pyLower s) = none →
        read_signal_file (.content (.obj fields)) =
          { status := .BLOCKED, reason := some ("Invalid signal status: " ++ pyLower s),
            needs := some "investigation" }) ∧
    (∀ fields s, jsonGet fields "status" = some (.str s) →
        signalStatusOfString (pyLower s) = none →
        legacy_read_signal_file (.content (.obj fields)) =
          { status := .BLOCKED, reason := some ("Invalid signal status: " ++ pyLower s),
            needs := some "investigation" }) ∧
    (read_signal_file (.content (.obj [])) = { status := .CONTINUE }) ∧
    (legacy_read_signal_file (.content (.obj [])) =
      { status := .BLOCKED, reason := some "Empty signal file - Claude may have crashed",
        needs := some "investigation" }) := by
  refine ⟨by decide, by decide, ?_, ?_, ?_, ?_, by decide, by decide⟩
  · intro e
    simp [read_signal_file]
  · intro e
    simp [legacy_read_signal_file]
  · intro fields s hget hstatus
    have hne : fields ≠ [] := by
      intro hnil
      rw [hnil] at hget
      simp [jsonGet] at hget
    simp [read_signal_file, jsonTruthy, hne, hget, hstatus]
  · intro fields s hget hstatus
    have hne : fields ≠ [] := by
      intro hnil
      rw [hnil] at hget
      simp [jsonGet] at hget
    simp [legacy_read_signal_file, jsonTruthy, hne, hget, hstatus]

/-- Claim C4, witness: the amended decoding facts instantiated on a non-JSON
    payload and an unknown-status payload. -/
theorem c4_codec_safety_witness :
    read_signal_file (.notJson "Expecting value") =
      { status := .BLOCKED, reason := some ("Invalid signal JSON: " ++ "Expecting value"),
        needs := some "investigation" } ∧
    read_signal_file (.content (.obj [("status", .str "BANANA")])) =
      { status := .BLOCKED, reason := some ("Invalid signal status: " ++ pyLower "BANANA"),
        needs := some "investigation" } :=
  ⟨c4_codec_safety.2.2.1 "Expecting value",
   c4_codec_safety.2.2.2.2.1 [("status", .str "BANANA")] "BANANA" rfl (by decide)⟩

/-- Claim C5: in the final codec (`src/worker/signals.py`), decoding the empty
    JSON object payload yields a `Signal` with status `CONTINUE` and every
    other field unset. -/
theorem c5_empty_object_continue :
    read_signal_file (.content (.obj [])) =
      { status := .CONTINUE, summary := none, reason := none, needs := none,
        waiting_for := none, phase := none } := by
  decide

/-- When every attempt in the worklist fails, the retry loop falls through,
    remembering the result of the last attempt and invoking the single
    attempt once per worklist element. -/
lemma retryLoop_all_fail (f : Nat → ExecutionResult) :
    ∀ (len a : Nat) (last : Option ExecutionResult),
      (∀ i, a ≤ i → i < a + len → (f i).status ≠ .SUCCESS) →
      retryLoop f last (attemptNumbers a len) =
        (.allFailed (if len = 0 then last else some (f (a + len - 1))), len) := by
  intro len
  induction len with
  | zero =>
      intro a last _
      simp [attemptNumbers, retryLoop]
  | succ n ih =>
      intro a last h
      have hfa : (f a).status ≠ .SUCCESS := h a le_rfl (by omega)
      have hrec := ih (a + 1) (some (f a)) (fun i h1 h2 => h i (by omega) (by omega))
      simp only [attemptNumbers, retryLoop, hfa, if_false, hrec]
      by_cases hn : n = 0
      · subst hn
        simp
      · have hxy : a + 1 + n - 1 = a + (n + 1) - 1 := by omega
        simp [hn, hxy]

/-- When the first success is at attempt `k` inside the worklist, the retry
    loop returns that attempt's result after `k + 1 - a` invocations. -/
lemma retryLoop_first_success (f : Nat → ExecutionResult) (k : Nat)
    (hk : (f k).status = .SUCCESS) :
    ∀ (len a : Nat) (last : Option ExecutionResult),
      a ≤ k → k < a + len →
      (∀ i, a ≤ i → i < k → (f i).status ≠ .SUCCESS) →
      retryLoop f last (attemptNumbers a len) = (.earlySuccess (f k), k + 1 - a) := by
  intro len
  induction len with
  | zero =>
      intro a last h1 h2 _
      omega
  | succ n ih =>
      intro a last h1 h2 hfail
      rcases Nat.eq_or_lt_of_le h1 with heq | hlt
      · subst heq
        simp [attemptNumbers, retryLoop, hk]
      · have hfa : (f a).status ≠ .SUCCESS := hfail a le_rfl hlt
        have hrec := ih (a + 1) (some (f a)) hlt (by omega)
          (fun i hi1 hi2 => hfail i (by omega) hi2)
        simp only [attemptNumbers, retryLoop, hfa, if_false, hrec]
        have hxy : k + 1 - (a + 1) + 1 = k + 1 - a := by omega
        rw [hxy]

/-- Claim C6: when every single attempt yields a non-SUCCESS result,
    `run_claude_with_retry` invokes the single-attempt execution exactly
    `max_retries` times and returns a result with status `RETRY_EXHAUSTED`
    whose stdout, stderr, returncode and log_file are those of the last
    attempt; upon the first SUCCESS it returns that attempt's result
    immediately, having invoked the single attempt no further time. -/
theorem c6_retry_bound (f : Nat → ExecutionResult) (max_retries : Nat)
    (hmax : 1 ≤ max_retries) :
    ((∀ i, 1 ≤ i → i ≤ max_retries → (f i).status ≠ .SUCCESS) →
      run_claude_with_retry f max_retries =
        ({ status := .RETRY_EXHAUSTED, stdout := (f max_retries).stdout,
           stderr := (f max_retries).stderr,
           returncode := (f max_retries).returncode,
           attempt := max_retries,
           log_file := (f max_retries).log_file }, max_retries)) ∧
    (∀ k, 1 ≤ k → k ≤ max_retries → (f k).status = .SUCCESS →
      (∀ i, 1 ≤ i → i < k → (f i).status ≠ .SUCCESS) →
      run_claude_with_retry f max_retries = (f k, k)) := by
  constructor
  · intro h
    have hloop := retryLoop_all_fail f max_retries 1 none
      (fun i h1 h2 => h i h1 (by omega))
    have hm0 : ¬max_retries = 0 := by omega
    have h1m : 1 + max_retries - 1 = max_retries := by omega
    rw [if_neg hm0, h1m] at hloop
    unfold run_claude_with_retry
    rw [hloop]
  · intro k hk1 hk2 hks hfail
    have hloop := retryLoop_first_success f k hks max_retries 1 none hk1 (by omega)
      (fun i h1 h2 => hfail i h1 h2)
    have hk1m : k + 1 - 1 = k := by omega
    rw [hk1m] at hloop
    unfold run_claude_with_retry
    rw [hloop]

/-- Claim C6, witness: a runner stub that always fails is invoked exactly
    three times (the default retry bound) and the exhausted result carries the
    third attempt's payload; a stub succeeding at attempt 2 returns that
    attempt's result after exactly two invocations. -/
theorem c6_retry_bound_witness :
    run_claude_with_retry
        (fun i => { status := .FAILURE, stdout := "out" ++ toString i,
                    stderr := "err" ++ toString i, returncode := some 1,
                    attempt := i, log_file := some ("log" ++ toString i) }) 3 =
      ({ status := .RETRY_EXHAUSTED, stdout := "out3", stderr := "err3",
         returncode := some 1, attempt := 3, log_file := some "log3" }, 3) ∧
    run_claude_with_retry
        (fun i => if i = 2 then
            { status := .SUCCESS, stdout := "ok", stderr := "",
              returncode := some 0, attempt := 2 }
          else
            { status := .FAILURE, stdout := "", stderr := "boom",
              returncode := some 1, attempt := i }) 3 =
      ({ status := .SUCCESS, stdout := "ok", stderr := "",
         returncode := some 0, attempt := 2 }, 2) := by
  constructor
  · rw [(c6_retry_bound
      (fun i => { status := .FAILURE, stdout := "out" ++ toString i,
                  stderr := "err" ++ toString i, returncode := some 1,
                  attempt := i, log_file := some ("log" ++ toString i) }) 3
      (by decide)).1 (fun i _ _ => by simp)]
    decide
  · rw [(c6_retry_bound
      (fun i => if i = 2 then
          { status := .SUCCESS, stdout := "ok", stderr := "",
            returncode := some 0, attempt := 2 }
        else
          { status := .FAILURE, stdout := "", stderr := "boom",
            returncode := some 1, attempt := i }) 3
      (by decide)).2 2 (by decide) (by decide) (by decide)
      (fun i h1 h2 => by interval_cases i; decide)]
    decide

/-- Claim C9, counterexample. A `continue` signal in terminal phase `"done"`
    is downgraded to `BLOCKED`, but the ledger entry written for the iteration
    records the original status string `"continue"`, not the downgraded
    `BLOCKED` signal: recording happens before validation. -/
theorem c9_downgrade_counterexample :
    (validate_and_process_signal { status := .CONTINUE } (some "done") [] 1).signal.status =
      SignalStatus.BLOCKED ∧
    (validate_and_process_signal { status := .CONTINUE } (some "done") [] 1).ledger =
      [.entry { timestamp := "", iteration := 1, phase := some "done",
                status := "continue", summary := none, reason := none,
                needs := none, waiting_for := none }] ∧
    ("continue" : String) ≠ SignalStatus.BLOCKED.value := by
  decide

/-- Claim C9, amended. A malformed or illegal signal is never fatal: the
    validation step always returns either the signal unchanged or a `BLOCKED`
    signal carrying a diagnostic reason and a `needs` hint (committing no
    transition), and the signal recorded in the history ledger for the
    iteration is always the original as-received signal, recorded before
    validation — not the downgraded one. -/
theorem c9_downgrade (signal : Signal) (current_phase : Option String)
    (ledger : List HistoryLine) (iteration : Nat) :
    (validate_and_process_signal signal current_phase ledger iteration).ledger =
      record_signal ledger signal iteration current_phase ∧
    ((validate_and_process_signal signal current_phase ledger iteration).signal = signal ∨
      ((validate_and_process_signal signal current_phase ledger iteration).signal.status =
          SignalStatus.BLOCKED ∧
       (validate_and_process_signal signal current_phase ledger iteration).signal.reason.isSome =
          true ∧
       (validate_and_process_signal signal current_phase ledger iteration).signal.needs.isSome =
          true ∧
       (validate_and_process_signal signal current_phase ledger iteration).committed_phase =
          none)) := by
  simp only [validate_and_process_signal]
  split
  · exact ⟨rfl, Or.inr (by simp)⟩
  · split
    · rename_i b hb
      refine ⟨rfl, Or.inr ?_⟩
      split at hb
      · simp at hb
      · split at hb
        · simp at hb
        · split at hb
          · rw [Option.some_inj] at hb
            simp [← hb]
          · simp at hb
    · split
      · split
        · split
          · exact ⟨rfl, Or.inr (by simp)⟩
          · split
            · exact ⟨rfl, Or.inr (by simp)⟩
            · exact ⟨rfl, Or.inl rfl⟩
        · exact ⟨rfl, Or.inl rfl⟩
      · exact ⟨rfl, Or.inl rfl⟩

/-- Claim C7: `is_iteration_limit_exceeded(p, n)` returns `(false, 0)` for
    every count `n` when `p` is null or unknown (no config), and for a known
    phase returns exceeded exactly when `n` is strictly greater than that
    phase's `max_iterations` (so `n = max_iterations` is not exceeded), with
    `max_allowed = max_iterations`. -/
theorem c7_iteration_budget :
    (∀ (p : Option String) (n : Int), get_phase_config p = none →
        is_iteration_limit_exceeded p n = (false, 0)) ∧
    (∀ (p : Option String) (cfg : PhaseConfig) (n : Int), get_phase_config p = some cfg →
        is_iteration_limit_exceeded p n = (decide (n > cfg.max_iterations), cfg.max_iterations)) := by
  constructor
  · intro p n h
    simp [is_iteration_limit_exceeded, h]
  · intro p cfg n h
    simp [is_iteration_limit_exceeded, h]

/-- Claim C7, witness: the budget check evaluated at a null phase, an unknown
    phase, and phase `"testing"` (max 20) at and just past its limit. -/
theorem c7_iteration_budget_witness :
    is_iteration_limit_exceeded none 5 = (false, 0) ∧
    is_iteration_limit_exceeded (some "bogus") 7 = (false, 0) ∧
    is_iteration_limit_exceeded (some "testing") 20 = (false, 20) ∧
    is_iteration_limit_exceeded (some "testing") 21 = (true, 20) := by
  refine ⟨c7_iteration_budget.1 none 5 (by decide),
          c7_iteration_budget.1 (some "bogus") 7 (by decide), ?_, ?_⟩
  · rw [c7_iteration_budget.2 (some "testing") (PHASE_CONFIGS .TESTING) 20 (by decide)]
    decide
  · rw [c7_iteration_budget.2 (some "testing") (PHASE_CONFIGS .TESTING) 21 (by decide)]
    decide

/-- A ledger built by recording `n` signals whose phase is `"init"`. -/
def initLedger : Nat → List HistoryLine
  | 0 => []
  | n + 1 => record_signal (initLedger n) { status := .CONTINUE, phase := some "init" } (n + 1) none

/-- Extend a ledger by recording `n` signals whose phase is `"investigation"`. -/
def invLedger (base : List HistoryLine) : Nat → List HistoryLine
  | 0 => base
  | n + 1 => record_signal (invLedger base n)
      { status := .CONTINUE, phase := some "investigation" } (n + 1) none

/-- Counting distributes over ledger concatenation. -/
lemma get_phase_iteration_count_append (l1 l2 : List HistoryLine) (p : String) :
    get_phase_iteration_count (l1 ++ l2) p =
      get_phase_iteration_count l1 p + get_phase_iteration_count l2 p := by
  simp [get_phase_iteration_count, List.countP_append]

/-- Lowercasing fixed phase-name literals. -/
lemma pyLower_init : pyLower "init" = "init" := by decide

/-- Lowercasing the uppercase phase query used by the round-trip law. -/
lemma pyLower_INIT : pyLower "INIT" = "init" := by decide

/-- Lowercasing the literal "investigation" is the identity. -/
lemma pyLower_investigation : pyLower "investigation" = "investigation" := by decide

/-- Lowercasing the literal "planning" is the identity. -/
lemma pyLower_planning : pyLower "planning" = "planning" := by decide

/-- Counting the `"init"` ledger: `n` when the queried phase lowercases to
    `"init"`, zero otherwise. -/
lemma count_initLedger (n : Nat) (p : String) :
    get_phase_iteration_count (initLedger n) p =
      if pyLower p = "init" then n else 0 := by
  induction n with
  | zero => simp [initLedger, get_phase_iteration_count]
  | succ m ih =>
      rw [initLedger, record_signal, get_phase_iteration_count_append, ih]
      by_cases h : pyLower p = "init"
      · simp [get_phase_iteration_count, historyLineMatches, pyOr, h, pyLower_init]
      · simp [get_phase_iteration_count, historyLineMatches, pyOr, h, pyLower_init,
          Ne.symm h]

/-- Counting the `"investigation"` extension: the base count plus `n` when the
    queried phase lowercases to `"investigation"`, plus zero otherwise. -/
lemma count_invLedger (base : List HistoryLine) (n : Nat) (p : String) :
    get_phase_iteration_count (invLedger base n) p =
      get_phase_iteration_count base p +
        (if pyLower p = "investigation" then n else 0) := by
  induction n with
  | zero => simp [invLedger]
  | succ m ih =>
      rw [invLedger, record_signal, get_phase_iteration_count_append, ih]
      by_cases h : pyLower p = "investigation"
      · simp [get_phase_iteration_count, historyLineMatches, pyOr, h,
          pyLower_investigation]
        omega
      · simp [get_phase_iteration_count, historyLineMatches, pyOr, h,
          pyLower_investigation, Ne.symm h]

/-- Claim C8: after recording `N` signals with recorded phase `"init"`,
    interleaving a blank and a corrupt ledger line, then recording 3 signals
    with recorded phase `"investigation"`, the count is `N` for `"init"` and
    for `"INIT"` (case-insensitive), 3 for `"investigation"`, and 0 for
    `"planning"`; the blank and non-JSON lines are skipped rather than
    failing the count. -/
theorem c8_ledger_roundtrip (N : Nat) :
    get_phase_iteration_count
        (invLedger (initLedger N ++ [HistoryLine.blank, HistoryLine.corrupt]) 3) "init" = N ∧
    get_phase_iteration_count
        (invLedger (initLedger N ++ [HistoryLine.blank, HistoryLine.corrupt]) 3) "INIT" = N ∧
    get_phase_iteration_count
        (invLedger (initLedger N ++ [HistoryLine.blank, HistoryLine.corrupt]) 3)
        "investigation" = 3 ∧
    get_phase_iteration_count
        (invLedger (initLedger N ++ [HistoryLine.blank, HistoryLine.corrupt]) 3)
        "planning" = 0 := by
  have hblank : ∀ p, get_phase_iteration_count [HistoryLine.blank, HistoryLine.corrupt] p = 0 := by
    intro p
    simp [get_phase_iteration_count, historyLineMatches]
  refine ⟨?_, ?_, ?_, ?_⟩ <;>
    rw [count_invLedger, get_phase_iteration_count_append, count_initLedger, hblank] <;>
    simp [pyLower_init, pyLower_INIT, pyLower_investigation, pyLower_planning]

/-- Claim C10: a ledger entry recorded from a signal with no phase and no
    fallback phase has a null recorded phase, and `get_phase_iteration_count`
    counts entries with a null phase for no phase string whatsoever, so such
    iterations never consume any phase's iteration budget. -/
theorem c10_null_phase_uncounted :
    (∀ (ledger : List HistoryLine) (signal : Signal) (iteration : Nat),
        signal.phase = none →
        record_signal ledger signal iteration none =
          ledger ++ [.entry
            { timestamp := "", iteration := iteration, phase := none,
              status := signal.status.value, summary := signal.summary,
              reason := signal.reason, needs := signal.needs,
              waiting_for := signal.waiting_for }]) ∧
    (∀ ledger : List HistoryLine,
        (∀ e, HistoryLine.entry e ∈ ledger → e.phase = none) →
        ∀ p, get_phase_iteration_count ledger p = 0) := by
  constructor
  · intro ledger signal iteration h
    simp [record_signal, pyOr, h]
  · intro ledger h p
    rw [get_phase_iteration_count, List.countP_eq_zero]
    intro line hline
    cases line with
    | blank => simp [historyLineMatches]
    | corrupt => simp [historyLineMatches]
    | entry e =>
        rw [historyLineMatches, h e hline]
        simp

/-- A concrete ledger entry recorded with a null phase, used by the C10
    witness. -/
def nullPhaseEntry : SignalHistoryEntry :=
  { timestamp := "", iteration := 1, phase := none, status := "continue",
    summary := none, reason := none, needs := none, waiting_for := none }

/-- Claim C10, witness: a concrete phase-less recording and the zero counts of
    a one-entry null-phase ledger for two sample phases. -/
theorem c10_null_phase_uncounted_witness :
    record_signal [] { status := SignalStatus.CONTINUE } 1 none = [.entry nullPhaseEntry] ∧
    get_phase_iteration_count [.entry nullPhaseEntry] "init" = 0 ∧
    get_phase_iteration_count [.entry nullPhaseEntry] "planning" = 0 := by
  refine ⟨c10_null_phase_uncounted.1 [] { status := SignalStatus.CONTINUE } 1 rfl, ?_, ?_⟩ <;>
    exact c10_null_phase_uncounted.2 _
      (by intro e he; simp at he; rw [he]; rfl) _

end Samocode
